import Mathlib

/-!
Verification of the watermark compositing engine of `photo-watermark-2`
(`src/app/watermarking.py` and the batch-export entry point of
`src/app/main.py`), as a shallow embedding.

Modelling conventions:
* Python `int` is `Int`, Python `float` is `ℚ` (the values reaching the
  float-valued expressions here are small integers and halves, where float
  and exact rational arithmetic agree).
* PIL images are embedded as expression trees (`Expr`) recording exactly the
  sequence of PIL calls the source performs; `Expr.size` interprets the
  documented size semantics of each call, and `pixW` interprets pixel
  content, parameterised by a `Kernels` record holding the rasterisation
  kernels (glyph rendering, Lanczos/bicubic resampling) whose pixel output
  the claims do not depend on.
* Effectful dependencies (`sys.platform`, `os.path.exists`, font loading
  success, `Image.open`, text measurement, the cos/sin pair used by
  `Image.rotate`) are fields of an environment record `Env`.
* Python exceptions are modelled by `Option`: `none` is a raised exception.
-/

set_option autoImplicit false

namespace Watermark

/-- An 8-bit RGBA pixel, the `RGBA = Tuple[int,int,int,int]` alias of the
source (channel values 0..255). -/
structure RGBA where
  r : Nat
  g : Nat
  b : Nat
  a : Nat
deriving DecidableEq, Repr

/-- The fully transparent pixel `(0, 0, 0, 0)`. -/
def transparent : RGBA := ⟨0, 0, 0, 0⟩

/-- Python `int(q)` on a float: truncation toward zero. -/
def pyInt (q : ℚ) : ℤ :=
  if q < 0 then -⌊-q⌋ else ⌊q⌋

/-- Python `round(q)` on a float: round half to even (used only to state the
spec's `round(...)` formulas, which the code does not use). -/
def pyRound (q : ℚ) : ℤ :=
  let n := ⌊q⌋
  if q - n < 1/2 then n
  else if 1/2 < q - n then n + 1
  else if n % 2 = 0 then n else n + 1

/-- Python `str.upper()` (the format strings involved are ASCII). -/
def pyUpper (s : String) : String := String.mk (s.toList.map Char.toUpper)

/-- Truthiness of an `Optional[str]`: `None` and `""` are falsy. -/
def pyTruthyStr : Option String → Bool
  | some s => s ≠ ""
  | none => false

/-- Python `a or b` on `Optional[str]` operands. -/
def pyOrPath (a b : Option String) : Option String :=
  match a with
  | some s => if s = "" then b else some s
  | none => b

/-- `ExportOptions` dataclass of `watermarking.py`. -/
structure ExportOptions where
  out_format : String
  jpeg_quality : Int := 90
  scale_mode : String := "none"
  scale_value : Int := 100
deriving DecidableEq, Repr

/-- `NamingRule` dataclass of `watermarking.py` (`prefix`/`suffix` fields
renamed `pre`/`suf`, Lean reserves the former). -/
structure NamingRule where
  mode : String := "suffix"
  pre : String := "wm_"
  suf : String := "_watermarked"
deriving DecidableEq, Repr

/-- `TextStyle` dataclass of `watermarking.py`. -/
structure TextStyle where
  family_path : Option String
  size : Int
  bold : Bool := false
  italic : Bool := false
  color : RGBA := ⟨255, 255, 255, 180⟩
  stroke : Bool := false
  stroke_width : Int := 2
  stroke_color : RGBA := ⟨0, 0, 0, 200⟩
  shadow : Bool := false
  shadow_offset : Int × Int := (2, 2)
  shadow_color : RGBA := ⟨0, 0, 0, 160⟩
deriving DecidableEq, Repr

/-- `WatermarkConfig` dataclass of `watermarking.py`. -/
structure WatermarkConfig where
  kind : String
  text : String := ""
  text_style : Option TextStyle := none
  image_path : Option String := none
  image_alpha : Int := 180
  scale_percent : Int := 100
  angle_deg : ℚ := 0
  pos : Int × Int := (0, 0)
deriving DecidableEq, Repr

/-- A resolved font: `ImageFont.truetype(path, size)` or
`ImageFont.load_default()`. -/
inductive Font where
  | truetype (path : String) (size : Int)
  | load_default
deriving DecidableEq, Repr

/-- Environment of effectful dependencies of the rendering module. -/
structure Env where
  /-- `sys.platform`. -/
  platform : String
  /-- `os.path.exists`. -/
  pathExists : String → Bool
  /-- whether `ImageFont.truetype(path, size)` succeeds (a corrupt or
  unreadable file makes it raise, i.e. return `false` here). -/
  loadOk : String → Int → Bool
  /-- `draw.textbbox((0,0), text, font=font, stroke_width=w)`:
  `(x0, y0, x1, y1)`. -/
  textbbox : String → Font → Int → Int × Int × Int × Int
  /-- `Image.open(path)` followed by size inspection: `some (w, h)` on
  success, `none` when the file is missing or unreadable (an exception). -/
  openImage : String → Option (Nat × Nat)
  /-- the (cos, sin) pair `Image.rotate` computes for an angle in degrees. -/
  trig : ℚ → ℚ × ℚ

/-- Python `s.startswith(p)` (ASCII platform strings), via character
lists so that concrete instances reduce in the kernel. -/
def pyStartsWith (s p : String) : Bool := p.toList.isPrefixOf s.toList

/-- The fixed candidate font list of `find_default_font`, per platform. -/
def font_candidates (platform : String) : List String :=
  if pyStartsWith platform "win" then
    ["C:\\Windows\\Fonts\\msyh.ttc",
     "C:\\Windows\\Fonts\\simhei.ttf",
     "C:\\Windows\\Fonts\\simsun.ttc",
     "C:\\Windows\\Fonts\\arial.ttf"]
  else if platform = "darwin" then
    ["/System/Library/Fonts/PingFang.ttc",
     "/System/Library/Fonts/Songti.ttc",
     "/System/Library/Fonts/Helvetica.ttc",
     "/System/Library/Fonts/Supplemental/Arial.ttf"]
  else
    ["/usr/share/fonts/truetype/noto/NotoSansCJK-Regular.ttc",
     "/usr/share/fonts/truetype/dejavu/DejaVuSans.ttf",
     "/usr/share/fonts/opentype/noto/NotoSansCJK-Regular.ttc"]

/-- `find_default_font` of `watermarking.py`: first candidate that exists on
disk, else `None`. -/
def find_default_font (env : Env) : Option String :=
  (font_candidates env.platform).find? env.pathExists

/-- `_load_font` of `watermarking.py`: `path = style.family_path or
find_default_font()`; `try: if path: return truetype(path, size) except:
pass; return load_default()`. -/
def load_font (env : Env) (style : TextStyle) : Font :=
  match pyOrPath style.family_path (find_default_font env) with
  | some p =>
      if p = "" then Font.load_default
      else if env.loadOk p style.size then Font.truetype p style.size
      else Font.load_default
  | none => Font.load_default

/-! ## Rotation-with-expansion geometry

`Image.rotate(angle, expand=1)` (PIL) maps the four corners of the source
rectangle through the affine rotation matrix it builds (rotation about the
image centre) and sizes the output canvas as `ceil(max) - floor(min)` of the
transformed corner coordinates, per axis.  Both axes apply an affine form
`c*x + s*y + e`, so one family of definitions serves both. -/

/-- One coordinate of PIL's affine corner transform: `c*x + s*y + e`. -/
def affX (c s e x y : ℚ) : ℚ := c * x + s * y + e

/-- Maximum of four rationals. -/
def qmax4 (a b c d : ℚ) : ℚ := max (max a b) (max c d)

/-- Minimum of four rationals. -/
def qmin4 (a b c d : ℚ) : ℚ := min (min a b) (min c d)

/-- `floor(min(xx))` over the four transformed corners of a `w×h` rectangle
(one axis of PIL's expand-size computation). -/
def boxLo (c s e w h : ℚ) : ℤ :=
  ⌊qmin4 (affX c s e 0 0) (affX c s e w 0) (affX c s e w h) (affX c s e 0 h)⌋

/-- `ceil(max(xx))` over the four transformed corners of a `w×h` rectangle. -/
def boxHi (c s e w h : ℚ) : ℤ :=
  ⌈qmax4 (affX c s e 0 0) (affX c s e w 0) (affX c s e w h) (affX c s e 0 h)⌉

/-- Output size of `Image.rotate(angle, expand=1)` for a `w×h` image, given
the (cos, sin) pair the library computes for the angle: the affine matrix
fixes the image centre, and each output dimension is `ceil(max) - floor(min)`
of the transformed corner coordinates. -/
def rotSize (cs : ℚ × ℚ) (wh : Nat × Nat) : Nat × Nat :=
  let c := cs.1
  let s := cs.2
  let w : ℚ := wh.1
  let h : ℚ := wh.2
  let e := w / 2 - (c * (w / 2) + s * (h / 2))
  let f := h / 2 - (-s * (w / 2) + c * (h / 2))
  ((boxHi c s e w h - boxLo c s e w h).toNat,
   (boxHi (-s) c f w h - boxLo (-s) c f w h).toNat)

/-! ## PIL image expressions -/

/-- A PIL resampling filter (only those the source passes). -/
inductive Resample where
  | nearest
  | bicubic
  | lanczos
deriving DecidableEq, Repr

/-- A PIL image as the expression tree of the calls that built it, exactly
mirroring the call sequence of `watermarking.py`:
* `new w h c` — `Image.new("RGBA", (w, h), c)`;
* `opened w h path` — `Image.open(path)` (size recorded from the file);
* `text w h s style` — the `tw×th` transparent canvas with `s` drawn on it
  by `_draw_text` (shadow, fill, stroke per `style`);
* `resize e w h filter` — `e.resize((w, h), filter)`;
* `rotate e angle filter expand w h` — `e.rotate(angle, resample=filter,
  expand=expand)`, rotating counter-clockwise by `angle` degrees; `(w, h)`
  is the output size the call computed;
* `alphaMul e alpha` — the split/point/merge block scaling the alpha band by
  `alpha/255`;
* `paste base im x y` — `base.paste(im, (x, y), im)` (alpha paste, clipped
  silently at `base`'s bounds, never resizing `base`);
* `composite base over` — `Image.alpha_composite(base, over)`;
* `convertRGBA e` — `e.convert("RGBA")` (sources here are RGBA rasters, for
  which PIL's conversion is a pixel-identical copy). -/
inductive Expr where
  | new (w h : Nat) (color : RGBA)
  | opened (w h : Nat) (path : String)
  | text (w h : Nat) (s : String) (style : TextStyle)
  | resize (e : Expr) (w h : Nat) (filter : Resample)
  | rotate (e : Expr) (angle : ℚ) (filter : Resample) (expand : Bool) (w h : Nat)
  | alphaMul (e : Expr) (alpha : Int)
  | paste (base : Expr) (im : Expr) (x y : Int)
  | composite (base : Expr) (over : Expr)
  | convertRGBA (e : Expr)
deriving DecidableEq, Repr

/-- The pixel dimensions of an image expression, per PIL's documented size
semantics: `new`/`resize` have the requested size, `rotate` the size computed
at the call, `paste` mutates its base in place (never resizing it),
`alpha_composite` and `convert` keep the size of their input. -/
def Expr.size : Expr → Nat × Nat
  | .new w h _ => (w, h)
  | .opened w h _ => (w, h)
  | .text w h _ _ => (w, h)
  | .resize _ w h _ => (w, h)
  | .rotate _ _ _ _ w h => (w, h)
  | .alphaMul e _ => e.size
  | .paste b _ _ _ => b.size
  | .composite b _ => b.size
  | .convertRGBA e => e.size

/-- `im.rotate(angle, resample=filter, expand=1)` as called by both render
paths: records the arguments and the expand-computed output size. -/
def pilRotate (env : Env) (e : Expr) (angle : ℚ) (filter : Resample) : Expr :=
  let wh := rotSize (env.trig angle) e.size
  Expr.rotate e angle filter true wh.1 wh.2

/-! ## Pixel semantics -/

/-- Rasterisation kernels whose pixel output the claims do not constrain:
file decoding, glyph rendering, and the resampling interpolators.  Pixel
theorems hold for every choice of kernels. -/
structure Kernels where
  openPix : String → Int → Int → RGBA
  textPix : Nat → Nat → String → TextStyle → Int → Int → RGBA
  resizePix : (Int → Int → RGBA) → Nat × Nat → Nat × Nat → Resample → Int → Int → RGBA
  rotatePix : (Int → Int → RGBA) → Nat × Nat → ℚ → Resample → Int → Int → RGBA

/-- The alpha `point` map of the image path:
`a.point(lambda x: int(x * (alpha/255.0)))` applied to the alpha band. -/
def alphaMulPix (alpha : Int) (p : RGBA) : RGBA :=
  ⟨p.r, p.g, p.b, (pyInt ((p.a : ℚ) * (alpha : ℚ) / 255)).toNat⟩

/-- Blend of one channel in an alpha-masked `paste`, mask value `m`
(linear interpolation `dst*(255-m)/255 + src*m/255`, rounded). -/
def blendChannel (m dst src : Nat) : Nat :=
  (dst * (255 - m) + src * m + 127) / 255

/-- One pixel of an alpha-masked `paste`: each band of the pasted image is
blended over the base by the pasted image's alpha. -/
def pastePix (dst src : RGBA) : RGBA :=
  ⟨blendChannel src.a dst.r src.r, blendChannel src.a dst.g src.g,
   blendChannel src.a dst.b src.b, blendChannel src.a dst.a src.a⟩

/-- One pixel of `Image.alpha_composite(dst, src)`: the standard straight-
alpha "over" operator; a fully transparent source pixel leaves the
destination pixel unchanged. -/
def overPix (dst src : RGBA) : RGBA :=
  if src.a = 0 then dst
  else
    let sw := src.a * 255
    let dw := dst.a * (255 - src.a)
    let outa255 := sw + dw
    ⟨(src.r * sw + dst.r * dw + outa255 / 2) / outa255,
     (src.g * sw + dst.g * dw + outa255 / 2) / outa255,
     (src.b * sw + dst.b * dw + outa255 / 2) / outa255,
     (outa255 + 127) / 255⟩

/-- Pixel content of an image expression (coordinates are only meaningful
inside the image's bounds), parameterised by the rasterisation kernels. -/
def pixW (K : Kernels) : Expr → Int → Int → RGBA
  | .new _ _ c, _, _ => c
  | .opened _ _ p, i, j => K.openPix p i j
  | .text w h s st, i, j => K.textPix w h s st i j
  | .resize e w h f, i, j => K.resizePix (fun i j => pixW K e i j) e.size (w, h) f i j
  | .rotate e angle f _ _ _, i, j => K.rotatePix (fun i j => pixW K e i j) e.size angle f i j
  | .alphaMul e a, i, j => alphaMulPix a (pixW K e i j)
  | .paste b e x y, i, j =>
      if x ≤ i ∧ i < x + (e.size.1 : Int) ∧ y ≤ j ∧ j < y + (e.size.2 : Int) then
        pastePix (pixW K b i j) (pixW K e (i - x) (j - y))
      else pixW K b i j
  | .composite b o, i, j => overPix (pixW K b i j) (pixW K o i j)
  | .convertRGBA e, i, j => pixW K e i j

/-! ## The renderer (`watermarking.py`) -/

/-- The text measurement step of `_render_text_layer`: the width and height
of `draw.textbbox((0, 0), cfg.text, font=font, stroke_width=stroke_w)`,
with the stroke width taken from the style only when stroke is enabled. -/
def measured (env : Env) (cfg : WatermarkConfig) (st : TextStyle) : Int × Int :=
  let stroke_w : Int := if st.stroke then st.stroke_width else 0
  let font := load_font env st
  let bb := env.textbbox cfg.text font stroke_w
  (bb.2.2.1 - bb.1, bb.2.2.2 - bb.2.1)

/-- `_render_text_layer(base_size, cfg)`.  A `cfg.text_style` of `None`
makes the source raise inside `_load_font` (modelled by `none`); a measured
bounding box of non-positive width or height returns the untouched
transparent layer. -/
def render_text_layer (env : Env) (base_size : Nat × Nat) (cfg : WatermarkConfig) :
    Option Expr :=
  let W := base_size.1
  let H := base_size.2
  let layer := Expr.new W H transparent
  match cfg.text_style with
  | none => none
  | some st =>
      let tw := (measured env cfg st).1
      let th := (measured env cfg st).2
      if tw ≤ 0 ∨ th ≤ 0 then some layer
      else
        let text_img := Expr.text tw.toNat th.toNat cfg.text st
        let text_img :=
          if 1 / 100 < |cfg.angle_deg| then pilRotate env text_img cfg.angle_deg Resample.bicubic
          else text_img
        some (Expr.paste layer text_img cfg.pos.1 cfg.pos.2)

/-- `_render_image_layer(base_size, cfg)`.  A missing `image_path` or a
failing `Image.open` raises (modelled by `none`). -/
def render_image_layer (env : Env) (base_size : Nat × Nat) (cfg : WatermarkConfig) :
    Option Expr :=
  let W := base_size.1
  let H := base_size.2
  let layer := Expr.new W H transparent
  match cfg.image_path with
  | none => none
  | some path =>
      match env.openImage path with
      | none => none
      | some wh =>
          let wm := Expr.convertRGBA (Expr.opened wh.1 wh.2 path)
          let wm :=
            if cfg.scale_percent ≠ 100 then
              let nw := (max 1 (pyInt ((wh.1 : ℚ) * (cfg.scale_percent : ℚ) / 100))).toNat
              let nh := (max 1 (pyInt ((wh.2 : ℚ) * (cfg.scale_percent : ℚ) / 100))).toNat
              Expr.resize wm nw nh Resample.lanczos
            else wm
          let wm := if cfg.image_alpha < 255 then Expr.alphaMul wm cfg.image_alpha else wm
          let wm :=
            if 1 / 100 < |cfg.angle_deg| then pilRotate env wm cfg.angle_deg Resample.bicubic
            else wm
          some (Expr.paste layer wm cfg.pos.1 cfg.pos.2)

/-- `apply_watermark(src, cfg)`: convert the source to RGBA, render the
matching layer, alpha-composite it over the base; with no usable text style
or image path, return the converted base unchanged. -/
def apply_watermark (env : Env) (src : Expr) (cfg : WatermarkConfig) : Option Expr :=
  let base := Expr.convertRGBA src
  if cfg.kind = "text" ∧ cfg.text_style.isSome then
    (render_text_layer env base.size cfg).map (fun layer => Expr.composite base layer)
  else if cfg.kind = "image" ∧ pyTruthyStr cfg.image_path then
    (render_image_layer env base.size cfg).map (fun layer => Expr.composite base layer)
  else
    some base

/-- `resize_for_export(img, opts)`.  The divisions are Python float
divisions followed by `int(...)` truncation; the degenerate zero-dimension
sources on which Python would raise `ZeroDivisionError` are excluded by
hypotheses at the theorems that divide. -/
def resize_for_export (img : Expr) (opts : ExportOptions) : Expr :=
  if opts.scale_mode = "none" then img
  else
    let W := img.size.1
    let H := img.size.2
    if opts.scale_mode = "percent" then
      let p := max 1 opts.scale_value
      Expr.resize img (max 1 (pyInt ((W : ℚ) * (p : ℚ) / 100))).toNat
        (max 1 (pyInt ((H : ℚ) * (p : ℚ) / 100))).toNat Resample.lanczos
    else if opts.scale_mode = "width" then
      let nw := max 1 opts.scale_value
      let nh := max 1 (pyInt ((H : ℚ) * (nw : ℚ) / (W : ℚ)))
      Expr.resize img nw.toNat nh.toNat Resample.lanczos
    else if opts.scale_mode = "height" then
      let nh := max 1 opts.scale_value
      let nw := max 1 (pyInt ((W : ℚ) * (nh : ℚ) / (H : ℚ)))
      Expr.resize img nw.toNat nh.toNat Resample.lanczos
    else img

/-- The file written by `export_image`: either a JPEG (the image pasted onto
an opaque white background, with the clamped quality) or a PNG of the image
itself. -/
inductive Saved where
  | jpeg (img : Expr) (quality : Int)
  | png (img : Expr)
deriving DecidableEq, Repr

/-- `export_image(img, out_path, opts)`: `fmt = opts.out_format.upper()`;
`"JPEG"` flattens onto white and saves with quality clamped to `[0, 100]`;
every other format string saves the image as PNG. -/
def export_image (img : Expr) (opts : ExportOptions) : Saved :=
  if pyUpper opts.out_format = "JPEG" then
    Saved.jpeg (Expr.paste (Expr.new img.size.1 img.size.2 ⟨255, 255, 255, 255⟩) img 0 0)
      (max 0 (min 100 opts.jpeg_quality))
  else
    Saved.png img

/-! ## Batch export (`main.py`, `MainWindow.do_export`) -/

/-- `pathlib.Path(p).stem` for POSIX paths: the final component without its
last extension (a leading dot alone is not an extension separator). -/
def stem (p : String) : String :=
  let base := (p.splitOn "/").getLastD p
  let cs := base.toList
  let n := (cs.reverse.takeWhile (· ≠ '.')).length
  -- the last dot sits at index `cs.length - n - 1`; pathlib strips at it
  -- only when that index is neither 0 nor the final character
  if 0 < n ∧ n + 1 < cs.length then String.mk (cs.take (cs.length - n - 1))
  else base

/-- `os.path.join(d, f)` for the POSIX flavour, in the shape `do_export`
uses (directory then filename). -/
def posixJoin (d f : String) : String :=
  if d = "" then f else if d.endsWith "/" then d ++ f else d ++ "/" ++ f

/-- `os.path.dirname` for the POSIX flavour: everything before the final
separator, trailing separators stripped unless the result is all
separators. -/
def posixDirname (p : String) : String :=
  let cs := p.toList
  match cs.reverse.findIdx? (· = '/') with
  | none => ""
  | some k =>
      let head := cs.take (cs.length - k)
      if head.all (· = '/') then String.mk head
      else String.mk ((head.reverse.dropWhile (· = '/')).reverse)

/-- The UI state `do_export` reads (`self.images`, `self.out_dir`,
`self.naming`, and the export settings). -/
structure AppState where
  images : List String
  out_dir : String
  naming : NamingRule
  out_format : String
  jpeg_quality : Int
  scale_mode : String
  scale_value : Int

/-- The output filename stem chosen by the naming rule in `do_export`:
`keep` → stem, `prefix` mode → rule's leading string ++ stem, anything else
→ stem ++ rule's trailing string. -/
def named_stem (naming : NamingRule) (st : String) : String :=
  if naming.mode = "keep" then st
  else if naming.mode = "prefix" then naming.pre ++ st
  else st ++ naming.suf

/-- `MainWindow.do_export`, as its observable effects: the list of warning
dialogs shown and the list of output paths written, in order.  The guards
run before the loop touches any file; `dirname` is the platform's
`os.path.dirname`. -/
def do_export (dirname : String → String) (st : AppState) :
    List String × List String :=
  if st.images = [] then (["请先导入图片"], [])
  else if st.out_dir = "" then (["请选择输出目录"], [])
  else if st.images.any (fun p => dirname p == st.out_dir) then
    (["默认禁止导出到原目录，请选择不同的输出目录。"], [])
  else
    ([], st.images.map (fun p =>
      let ext := if pyUpper st.out_format = "PNG" then ".png" else ".jpg"
      posixJoin st.out_dir (named_stem st.naming (stem p) ++ ext)))

/-! ## Test fixtures (concrete environments for witness instantiation) -/

/-- A concrete environment: Linux platform, no system fonts on disk, every
font loadable, a fixed 5×7 text measurement, a 3×5 logo behind every path,
axis-aligned trig. -/
def envTest : Env where
  platform := "linux"
  pathExists := fun _ => false
  loadOk := fun _ _ => true
  textbbox := fun _ _ _ => (0, 0, 5, 7)
  openImage := fun _ => some (3, 5)
  trig := fun _ => (1, 0)

/-- A concrete text style using the defaults of the dataclass. -/
def styleTest : TextStyle := { family_path := none, size := 20 }

/-! ## Observation helpers and spec-modelled comparators -/

/-- The image pasted onto the overlay, when the expression is a `paste`. -/
def pastedContent : Expr → Option Expr
  | .paste _ e _ _ => some e
  | _ => none

/-- The outermost rotation of an expression — its angle, filter and expand
flag — when the expression is a `rotate` call. -/
def topRotation : Expr → Option (ℚ × Resample × Bool)
  | .rotate _ angle f ex _ _ => some (angle, f, ex)
  | _ => none

/-- The target size and filter of the resize step inside a rendered logo,
looking through the alpha and rotation wrappers applied after it. -/
def resizeDims : Expr → Option (Nat × Nat × Resample)
  | .resize _ w h f => some (w, h, f)
  | .alphaMul e _ => resizeDims e
  | .rotate e _ _ _ _ _ => resizeDims e
  | _ => none

/-- Modelled from the spec: the claimed per-axis logo dimension
`max(1, round(dim * percent/100))`, with Python's `round`. -/
def logo_spec_dim (dim : Nat) (percent : Int) : Int :=
  max 1 (pyRound ((dim : ℚ) * (percent : ℚ) / 100))

/-- Modelled from the spec: the claimed output size of `resize_for_export`
for the `width`, `height` and `percent` modes, using `round(...)` where the
spec says `round` and flooring every dimension at 1. -/
def resize_spec_size (W H : Nat) (mode : String) (v : Int) : Nat × Nat :=
  if mode = "width" then
    (v.toNat, (max 1 (pyRound ((H : ℚ) * (v : ℚ) / (W : ℚ)))).toNat)
  else if mode = "height" then
    ((max 1 (pyRound ((W : ℚ) * (v : ℚ) / (H : ℚ)))).toNat, v.toNat)
  else if mode = "percent" then
    ((max 1 (pyRound ((W : ℚ) * (v : ℚ) / 100))).toNat,
     (max 1 (pyRound ((H : ℚ) * (v : ℚ) / 100))).toNat)
  else (W, H)

/-- Modelled from the spec: the claimed font-resolution chain — use
`family_path` when set and loadable; otherwise probe the fixed candidate
list, a corrupt candidate falling through to the next, ultimately to the
built-in font. -/
def load_font_spec (env : Env) (style : TextStyle) : Font :=
  let probe :=
    match (font_candidates env.platform).find?
        (fun p => env.pathExists p && env.loadOk p style.size) with
    | some p => Font.truetype p style.size
    | none => Font.load_default
  match style.family_path with
  | some p => if p ≠ "" ∧ env.loadOk p style.size then Font.truetype p style.size else probe
  | none => probe

/-- A concrete environment for the font-resolution counterexample: only the
DejaVu candidate exists on disk, and every font file loads except
`bad.ttf`. -/
def envBad : Env :=
  { envTest with
    pathExists := fun p => p == "/usr/share/fonts/truetype/dejavu/DejaVuSans.ttf",
    loadOk := fun p _ => p != "bad.ttf" }

/-- A text style pointing at an unloadable font file. -/
def styleBad : TextStyle := { family_path := some "bad.ttf", size := 20 }

/-! ## Claim theorems -/

/-- C1: for every source size `(W, H)` and configuration for which rendering
succeeds, the overlay returned by either render path has exactly the pixel
dimensions `(W, H)`: both paths paste the (possibly rotation-expanded)
watermark onto the fresh `W×H` transparent layer, whose size `paste` never
changes, clipping content silently instead of resizing. -/
theorem render_layer_size (env : Env) (W H : Nat) (cfg : WatermarkConfig) :
    (∀ out, render_text_layer env (W, H) cfg = some out → out.size = (W, H)) ∧
    (∀ out, render_image_layer env (W, H) cfg = some out → out.size = (W, H)) := by
  constructor
  · intro out h
    unfold render_text_layer at h
    cases hts : cfg.text_style with
    | none => rw [hts] at h; exact absurd h (by simp)
    | some st =>
      rw [hts] at h
      dsimp only at h
      split at h
      · cases h; rfl
      · cases h; rfl
  · intro out h
    unfold render_image_layer at h
    cases hip : cfg.image_path with
    | none => rw [hip] at h; exact absurd h (by simp)
    | some path =>
      rw [hip] at h
      dsimp only at h
      cases hoi : env.openImage path with
      | none => rw [hoi] at h; exact absurd h (by simp)
      | some wh => rw [hoi] at h; cases h; rfl

/-- C1 witness: a successful 4×3 text render evaluates to a paste onto the
4×3 layer, of size (4, 3). -/
theorem render_layer_size_witness :
    Expr.size (Expr.paste (Expr.new 4 3 transparent) (Expr.text 5 7 "hi" styleTest) 0 0) =
      (4, 3) :=
  (render_layer_size envTest 4 3
    { kind := "text", text := "hi", text_style := some styleTest }).1 _
    (by simp [render_text_layer, measured, envTest, styleTest])

/-- C4: `apply_watermark` with kind `"text"` but no attached text style, or
kind `"image"` but no attached image path (`None` or the empty string), is a
defined no-op: it raises nothing and returns the RGBA-converted source,
which has the same size and identical pixels as the source. -/
theorem apply_watermark_noop (env : Env) (src : Expr) (cfg : WatermarkConfig)
    (h : (cfg.kind = "text" ∧ cfg.text_style = none) ∨
         (cfg.kind = "image" ∧ pyTruthyStr cfg.image_path = false)) :
    apply_watermark env src cfg = some (Expr.convertRGBA src) ∧
    (Expr.convertRGBA src).size = src.size ∧
    ∀ K i j, pixW K (Expr.convertRGBA src) i j = pixW K src i j := by
  refine ⟨?_, rfl, fun K i j => rfl⟩
  rcases h with ⟨hk, hs⟩ | ⟨hk, hs⟩
  · have h1 : ¬(cfg.kind = "text" ∧ cfg.text_style.isSome) := by simp [hs]
    have h2 : ¬(cfg.kind = "image" ∧ pyTruthyStr cfg.image_path) := by
      rintro ⟨hc, -⟩
      exact absurd (hk ▸ hc) (by decide)
    simp [apply_watermark, h1, h2]
  · have h1 : ¬(cfg.kind = "text" ∧ cfg.text_style.isSome) := by
      rintro ⟨hc, -⟩
      exact absurd (hk ▸ hc) (by decide)
    have h2 : ¬(cfg.kind = "image" ∧ pyTruthyStr cfg.image_path) := by simp [hs]
    simp [apply_watermark, h1, h2]

/-- C4 witness: a text config with no style leaves a concrete 2×2 source
untouched. -/
theorem apply_watermark_noop_witness :
    apply_watermark envTest (Expr.new 2 2 ⟨9, 9, 9, 9⟩) { kind := "text" } =
      some (Expr.convertRGBA (Expr.new 2 2 ⟨9, 9, 9, 9⟩)) :=
  (apply_watermark_noop envTest _ _ (Or.inl ⟨rfl, rfl⟩)).1

/-- C5: with a non-empty image list and a chosen output directory, if that
directory equals the source directory of any input image, `do_export`
rejects the whole batch up front: it shows exactly one warning dialog and
writes zero files. -/
theorem do_export_guard (dirname : String → String) (st : AppState)
    (h1 : st.images ≠ []) (h2 : st.out_dir ≠ "")
    (h3 : ∃ p ∈ st.images, dirname p = st.out_dir) :
    do_export dirname st = (["默认禁止导出到原目录，请选择不同的输出目录。"], []) := by
  have hany : st.images.any (fun p => dirname p == st.out_dir) = true := by
    rcases h3 with ⟨p, hp, he⟩
    exact List.any_eq_true.2 ⟨p, hp, by simp [he]⟩
  simp [do_export, h1, h2, hany]

/-- C5 witness: the spec's scenario — inputs drawn from `/a/b/img1.png`,
output directory `/a/b` — rejects with the collision warning and writes
nothing. -/
theorem do_export_guard_witness :
    do_export posixDirname
      { images := ["/a/b/img1.png"], out_dir := "/a/b", naming := {},
        out_format := "PNG", jpeg_quality := 90, scale_mode := "none",
        scale_value := 100 } =
      (["默认禁止导出到原目录，请选择不同的输出目录。"], []) :=
  do_export_guard posixDirname _ (by decide) (by decide)
    ⟨"/a/b/img1.png", by decide, by decide⟩

/-- C8: a text watermark whose measured bounding box has non-positive width
or height renders, without error, the fully transparent `W×H` layer (every
pixel is `(0,0,0,0)`), and alpha-compositing that layer over any base leaves
every pixel of the base unchanged. -/
theorem empty_text_layer (env : Env) (W H : Nat) (cfg : WatermarkConfig) (st : TextStyle)
    (hst : cfg.text_style = some st)
    (hbb : (measured env cfg st).1 ≤ 0 ∨ (measured env cfg st).2 ≤ 0) :
    render_text_layer env (W, H) cfg = some (Expr.new W H transparent) ∧
    (∀ K i j, pixW K (Expr.new W H transparent) i j = transparent) ∧
    (∀ K base i j,
      pixW K (Expr.composite base (Expr.new W H transparent)) i j = pixW K base i j) := by
  refine ⟨?_, fun K i j => rfl, fun K base i j => ?_⟩
  · unfold render_text_layer
    rw [hst]
    dsimp only
    rw [if_pos hbb]
  · simp [pixW, overPix, transparent]

/-- C8 witness: an environment measuring an empty box yields the transparent
6×4 layer, whose pixels compose to a no-op over a concrete base pixel. -/
theorem empty_text_layer_witness :
    render_text_layer
      { envTest with textbbox := fun _ _ _ => (0, 0, 0, 0) } (6, 4)
      { kind := "text", text := "", text_style := some styleTest } =
      some (Expr.new 6 4 transparent) :=
  (empty_text_layer _ 6 4 _ styleTest rfl (Or.inl (by decide))).1

/-- C9: `resize_for_export` with `scale_mode = "none"` returns its input
image unchanged, for every image and option record. -/
theorem resize_none_id (img : Expr) (opts : ExportOptions)
    (h : opts.scale_mode = "none") :
    resize_for_export img opts = img := by
  simp [resize_for_export, h]

/-- C9 witness: identity at a concrete 2×3 image. -/
theorem resize_none_id_witness :
    resize_for_export (Expr.new 2 3 transparent) { out_format := "PNG" } =
      Expr.new 2 3 transparent :=
  resize_none_id _ _ rfl

/-- C10: `export_image` takes the JPEG path (flatten onto an opaque white
background, save with quality clamped to `[0, 100]`) exactly when the
upper-cased format string is `"JPEG"`; every other format string — lowercase
`"png"`, mixed case, or unrecognised — is written as a PNG of the image
itself, alpha intact, and no format string raises (the function is total). -/
theorem export_image_format (img : Expr) (opts : ExportOptions) :
    (pyUpper opts.out_format = "JPEG" →
      export_image img opts =
        Saved.jpeg
          (Expr.paste (Expr.new img.size.1 img.size.2 ⟨255, 255, 255, 255⟩) img 0 0)
          (max 0 (min 100 opts.jpeg_quality))) ∧
    (pyUpper opts.out_format ≠ "JPEG" → export_image img opts = Saved.png img) := by
  constructor <;> intro h <;> simp [export_image, h]

/-- C10 witness: the unrecognised format string `"WebP"` is written as PNG
with the image unchanged. -/
theorem export_image_format_witness :
    export_image (Expr.new 2 3 transparent) { out_format := "WebP" } =
      Saved.png (Expr.new 2 3 transparent) :=
  (export_image_format _ _).2 (by decide)

/-! ## Geometry of rotation with canvas expansion -/

theorem le_qmax4_a (a b c d : ℚ) : a ≤ qmax4 a b c d :=
  le_trans (le_max_left a b) (le_max_left _ _)

theorem le_qmax4_b (a b c d : ℚ) : b ≤ qmax4 a b c d :=
  le_trans (le_max_right a b) (le_max_left _ _)

theorem le_qmax4_c (a b c d : ℚ) : c ≤ qmax4 a b c d :=
  le_trans (le_max_left c d) (le_max_right _ _)

theorem le_qmax4_d (a b c d : ℚ) : d ≤ qmax4 a b c d :=
  le_trans (le_max_right c d) (le_max_right _ _)

theorem qmin4_le_a (a b c d : ℚ) : qmin4 a b c d ≤ a :=
  le_trans (min_le_left _ _) (min_le_left a b)

theorem qmin4_le_b (a b c d : ℚ) : qmin4 a b c d ≤ b :=
  le_trans (min_le_left _ _) (min_le_right a b)

theorem qmin4_le_c (a b c d : ℚ) : qmin4 a b c d ≤ c :=
  le_trans (min_le_right _ _) (min_le_left c d)

theorem qmin4_le_d (a b c d : ℚ) : qmin4 a b c d ≤ d :=
  le_trans (min_le_right _ _) (min_le_right c d)

/-- On the rectangle `[0,w]×[0,h]`, the affine form `c*x + s*y + e` is
bounded above by its maximum over the four corners. -/
theorem affX_le_qmax4 (c s e w h x y : ℚ) (hx0 : 0 ≤ x) (hxw : x ≤ w)
    (hy0 : 0 ≤ y) (hyh : y ≤ h) :
    affX c s e x y ≤
      qmax4 (affX c s e 0 0) (affX c s e w 0) (affX c s e w h) (affX c s e 0 h) := by
  rcases le_total 0 c with hc | hc <;> rcases le_total 0 s with hs | hs
  · refine le_trans ?_ (le_qmax4_c _ _ _ _)
    unfold affX
    nlinarith [mul_le_mul_of_nonneg_left hxw hc, mul_le_mul_of_nonneg_left hyh hs]
  · refine le_trans ?_ (le_qmax4_b _ _ _ _)
    unfold affX
    nlinarith [mul_le_mul_of_nonneg_left hxw hc, mul_nonneg (neg_nonneg.2 hs) hy0]
  · refine le_trans ?_ (le_qmax4_d _ _ _ _)
    unfold affX
    nlinarith [mul_nonneg (neg_nonneg.2 hc) hx0, mul_le_mul_of_nonneg_left hyh hs]
  · refine le_trans ?_ (le_qmax4_a _ _ _ _)
    unfold affX
    nlinarith [mul_nonneg (neg_nonneg.2 hc) hx0, mul_nonneg (neg_nonneg.2 hs) hy0]

/-- On the rectangle `[0,w]×[0,h]`, the affine form `c*x + s*y + e` is
bounded below by its minimum over the four corners. -/
theorem qmin4_le_affX (c s e w h x y : ℚ) (hx0 : 0 ≤ x) (hxw : x ≤ w)
    (hy0 : 0 ≤ y) (hyh : y ≤ h) :
    qmin4 (affX c s e 0 0) (affX c s e w 0) (affX c s e w h) (affX c s e 0 h) ≤
      affX c s e x y := by
  rcases le_total 0 c with hc | hc <;> rcases le_total 0 s with hs | hs
  · refine le_trans (qmin4_le_a _ _ _ _) ?_
    unfold affX
    nlinarith [mul_nonneg hc hx0, mul_nonneg hs hy0]
  · refine le_trans (qmin4_le_d _ _ _ _) ?_
    unfold affX
    nlinarith [mul_nonneg hc hx0, mul_le_mul_of_nonneg_left hyh (neg_nonneg.2 hs)]
  · refine le_trans (qmin4_le_b _ _ _ _) ?_
    unfold affX
    nlinarith [mul_le_mul_of_nonneg_left hxw (neg_nonneg.2 hc), mul_nonneg hs hy0]
  · refine le_trans (qmin4_le_c _ _ _ _) ?_
    unfold affX
    nlinarith [mul_le_mul_of_nonneg_left hxw (neg_nonneg.2 hc),
      mul_le_mul_of_nonneg_left hyh (neg_nonneg.2 hs)]

/-- C2: in both render paths the pasted watermark content carries a rotation
exactly when `|angle_deg| > 0.01`: above the threshold it is the
tightly-cropped watermark image rotated counter-clockwise by `angle_deg`
with the bicubic filter and `expand=1`, its canvas sized by `rotSize`; at or
below the threshold the content carries no rotation at all.  The third
conjunct is the expansion guarantee: every point of the pre-rotation `w×h`
rectangle is mapped by the rotation's affine corner transform into the
expanded canvas interval `[boxLo, boxHi]` (per axis), so no content pixel
falls outside the expanded bounds. -/
theorem rotation_policy :
    (∀ (env : Env) (W H : Nat) (cfg : WatermarkConfig) (out content : Expr),
      render_text_layer env (W, H) cfg = some out →
      pastedContent out = some content →
        (1 / 100 < |cfg.angle_deg| →
          ∃ e, content = Expr.rotate e cfg.angle_deg Resample.bicubic true
            (rotSize (env.trig cfg.angle_deg) e.size).1
            (rotSize (env.trig cfg.angle_deg) e.size).2) ∧
        (|cfg.angle_deg| ≤ 1 / 100 → topRotation content = none)) ∧
    (∀ (env : Env) (W H : Nat) (cfg : WatermarkConfig) (out content : Expr),
      render_image_layer env (W, H) cfg = some out →
      pastedContent out = some content →
        (1 / 100 < |cfg.angle_deg| →
          ∃ e, content = Expr.rotate e cfg.angle_deg Resample.bicubic true
            (rotSize (env.trig cfg.angle_deg) e.size).1
            (rotSize (env.trig cfg.angle_deg) e.size).2) ∧
        (|cfg.angle_deg| ≤ 1 / 100 → topRotation content = none)) ∧
    (∀ c s e w h x y : ℚ, 0 ≤ x → x ≤ w → 0 ≤ y → y ≤ h →
      (boxLo c s e w h : ℚ) ≤ affX c s e x y ∧
      affX c s e x y ≤ (boxHi c s e w h : ℚ)) := by
  refine ⟨?_, ?_, ?_⟩
  · intro env W H cfg out content hr hc
    unfold render_text_layer at hr
    cases hts : cfg.text_style with
    | none => rw [hts] at hr; exact absurd hr (by simp)
    | some st =>
      rw [hts] at hr
      dsimp only at hr
      split at hr
      · cases hr
        exact absurd hc (by simp [pastedContent])
      · cases hr
        simp only [pastedContent, Option.some.injEq] at hc
        subst hc
        constructor
        · intro hA
          rw [if_pos hA]
          exact ⟨_, rfl⟩
        · intro hA
          rw [if_neg (not_lt.2 hA)]
          rfl
  · intro env W H cfg out content hr hc
    unfold render_image_layer at hr
    cases hip : cfg.image_path with
    | none => rw [hip] at hr; exact absurd hr (by simp)
    | some path =>
      rw [hip] at hr
      dsimp only at hr
      cases hoi : env.openImage path with
      | none => rw [hoi] at hr; exact absurd hr (by simp)
      | some wh =>
        rw [hoi] at hr
        cases hr
        simp only [pastedContent, Option.some.injEq] at hc
        subst hc
        constructor
        · intro hA
          rw [if_pos hA]
          exact ⟨_, rfl⟩
        · intro hA
          rw [if_neg (not_lt.2 hA)]
          split <;> split <;> rfl
  · intro c s e w h x y hx0 hxw hy0 hyh
    constructor
    · exact le_trans (Int.floor_le _) (qmin4_le_affX c s e w h x y hx0 hxw hy0 hyh)
    · exact le_trans (affX_le_qmax4 c s e w h x y hx0 hxw hy0 hyh) (Int.le_ceil _)

/-- C2 witness: at angle 45° the text path's pasted content is the
rotation-expanded text image with the bicubic filter, and the sub-degree
angle 0 leaves the content unrotated. -/
theorem rotation_policy_witness :
    (∃ e, Expr.rotate (Expr.text 5 7 "hi" styleTest) 45 Resample.bicubic true 5 7 =
      Expr.rotate e (45 : ℚ) Resample.bicubic true
        (rotSize (envTest.trig 45) e.size).1 (rotSize (envTest.trig 45) e.size).2) ∧
    topRotation (Expr.text 5 7 "hi" styleTest) = none := by
  constructor
  · have hr : render_text_layer envTest (4, 3)
        { kind := "text", text := "hi", text_style := some styleTest, angle_deg := 45 } =
        some (Expr.paste (Expr.new 4 3 transparent)
          (Expr.rotate (Expr.text 5 7 "hi" styleTest) 45 Resample.bicubic true 5 7) 0 0) := by
      norm_num [render_text_layer, measured, envTest, styleTest, pilRotate, rotSize,
        boxHi, boxLo, qmax4, qmin4, affX, Expr.size, Int.toNat_ofNat]
      decide
    exact (rotation_policy.1 envTest 4 3 _ _ _ hr rfl).1 (by norm_num)
  · have hr : render_text_layer envTest (4, 3)
        { kind := "text", text := "hi", text_style := some styleTest, angle_deg := 0 } =
        some (Expr.paste (Expr.new 4 3 transparent) (Expr.text 5 7 "hi" styleTest) 0 0) := by
      norm_num [render_text_layer, measured, envTest, styleTest, Int.toNat_ofNat]
      decide
    exact (rotation_policy.1 envTest 4 3 _ _ _ hr rfl).2 (by norm_num)

/-- C3 counterexample: on a 2×3 image, `scale_mode="width"` with
`scale_value=1` yields height `max(1, int(3*1/2)) = 1`, while the claim's
formula `round(height*scale_value/width)` (floored at 1) demands 2 — the
code truncates where the claim says `round`. -/
theorem resize_round_counterexample :
    (resize_for_export (Expr.new 2 3 transparent)
        { out_format := "PNG", scale_mode := "width", scale_value := 1 }).size = (1, 1) ∧
    resize_spec_size 2 3 "width" 1 = (1, 2) := by
  constructor
  · norm_num [resize_for_export, Expr.size, pyInt]
  · norm_num [resize_spec_size, pyRound]
    decide

/-- C3 amended: for positive `scale_value` and a non-degenerate image,
`width` mode returns width `scale_value` and height
`max(1, trunc(height * scale_value / width))` (Python `int` truncation, not
`round`), computed from the pre-resize dimensions; `height` mode is
symmetric; `percent` mode scales each dimension to
`max(1, trunc(dim * scale_value / 100))`; every resulting dimension is
floored at 1 pixel. -/
theorem resize_dims (img : Expr) (opts : ExportOptions)
    (hW : 0 < img.size.1) (hH : 0 < img.size.2) (hv : 0 < opts.scale_value) :
    (opts.scale_mode = "width" →
      (resize_for_export img opts).size =
        (opts.scale_value.toNat,
         (max 1 (pyInt ((img.size.2 : ℚ) * (opts.scale_value : ℚ) / (img.size.1 : ℚ)))).toNat) ∧
      1 ≤ (resize_for_export img opts).size.1 ∧ 1 ≤ (resize_for_export img opts).size.2) ∧
    (opts.scale_mode = "height" →
      (resize_for_export img opts).size =
        ((max 1 (pyInt ((img.size.1 : ℚ) * (opts.scale_value : ℚ) / (img.size.2 : ℚ)))).toNat,
         opts.scale_value.toNat) ∧
      1 ≤ (resize_for_export img opts).size.1 ∧ 1 ≤ (resize_for_export img opts).size.2) ∧
    (opts.scale_mode = "percent" →
      (resize_for_export img opts).size =
        ((max 1 (pyInt ((img.size.1 : ℚ) * (opts.scale_value : ℚ) / 100))).toNat,
         (max 1 (pyInt ((img.size.2 : ℚ) * (opts.scale_value : ℚ) / 100))).toNat) ∧
      1 ≤ (resize_for_export img opts).size.1 ∧ 1 ≤ (resize_for_export img opts).size.2) := by
  have hmax : max 1 opts.scale_value = opts.scale_value := max_eq_right (by omega)
  have hone : (1 : ℤ) ≤ opts.scale_value := by omega
  refine ⟨fun hm => ?_, fun hm => ?_, fun hm => ?_⟩
  · have hsz : (resize_for_export img opts).size =
        ((max 1 opts.scale_value).toNat,
         (max 1 (pyInt ((img.size.2 : ℚ) * ((max 1 opts.scale_value : ℤ) : ℚ) /
            (img.size.1 : ℚ)))).toNat) := by
      simp [resize_for_export, hm, Expr.size]
    rw [hmax] at hsz
    refine ⟨hsz, ?_, ?_⟩ <;> rw [hsz]
    · simpa using Int.toNat_le_toNat hone
    · simpa using Int.toNat_le_toNat (le_max_left 1 _)
  · have hsz : (resize_for_export img opts).size =
        ((max 1 (pyInt ((img.size.1 : ℚ) * ((max 1 opts.scale_value : ℤ) : ℚ) /
            (img.size.2 : ℚ)))).toNat,
         (max 1 opts.scale_value).toNat) := by
      simp [resize_for_export, hm, Expr.size]
    rw [hmax] at hsz
    refine ⟨hsz, ?_, ?_⟩ <;> rw [hsz]
    · simpa using Int.toNat_le_toNat (le_max_left 1 _)
    · simpa using Int.toNat_le_toNat hone
  · have hsz : (resize_for_export img opts).size =
        ((max 1 (pyInt ((img.size.1 : ℚ) * ((max 1 opts.scale_value : ℤ) : ℚ) / 100))).toNat,
         (max 1 (pyInt ((img.size.2 : ℚ) * ((max 1 opts.scale_value : ℤ) : ℚ) / 100))).toNat) := by
      simp [resize_for_export, hm, Expr.size]
    rw [hmax] at hsz
    refine ⟨hsz, ?_, ?_⟩ <;> rw [hsz]
    · simpa using Int.toNat_le_toNat (le_max_left 1 _)
    · simpa using Int.toNat_le_toNat (le_max_left 1 _)

/-- C3 witness: a 2×3 image widened to 4 gets height trunc(3*4/2) = 6. -/
theorem resize_dims_witness :
    (resize_for_export (Expr.new 2 3 transparent)
        { out_format := "PNG", scale_mode := "width", scale_value := 4 }).size = (4, 6) := by
  have h := ((resize_dims (Expr.new 2 3 transparent)
    { out_format := "PNG", scale_mode := "width", scale_value := 4 }
    (by decide) (by decide) (by decide)).1 rfl).1
  rw [h]
  norm_num [pyInt, Expr.size]
  decide

/-- C6 counterexample: a 3×5 logo at `scale_percent=50` is resized by the
code to width `max(1, int(3*50/100)) = 1`, while the claim's
`max(1, round(dim*percent/100))` demands width 2 — the code truncates where
the claim says `round`. -/
theorem logo_scale_counterexample :
    render_image_layer envTest (8, 8)
      { kind := "image", image_path := some "logo.png", image_alpha := 255,
        scale_percent := 50 } =
      some (Expr.paste (Expr.new 8 8 transparent)
        (Expr.resize (Expr.convertRGBA (Expr.opened 3 5 "logo.png")) 1 2 Resample.lanczos)
        0 0) ∧
    (logo_spec_dim 3 50, logo_spec_dim 5 50) = (2, 2) := by
  constructor
  · norm_num [render_image_layer, envTest, pyInt]
    decide
  · norm_num [logo_spec_dim, pyRound]

/-- C6 amended: when `scale_percent != 100`, the logo is resized with the
Lanczos filter to `max(1, trunc(dim * percent/100))` in each axis
independently (Python `int` truncation, not `round`), so the scaled
dimensions are never zero. -/
theorem logo_scale (env : Env) (W H : Nat) (cfg : WatermarkConfig) (path : String)
    (w0 h0 : Nat) (out content : Expr)
    (hp : cfg.image_path = some path)
    (ho : env.openImage path = some (w0, h0))
    (hs : cfg.scale_percent ≠ 100)
    (hr : render_image_layer env (W, H) cfg = some out)
    (hc : pastedContent out = some content) :
    resizeDims content =
      some ((max 1 (pyInt ((w0 : ℚ) * (cfg.scale_percent : ℚ) / 100))).toNat,
            (max 1 (pyInt ((h0 : ℚ) * (cfg.scale_percent : ℚ) / 100))).toNat,
            Resample.lanczos) ∧
    1 ≤ (max 1 (pyInt ((w0 : ℚ) * (cfg.scale_percent : ℚ) / 100))).toNat ∧
    1 ≤ (max 1 (pyInt ((h0 : ℚ) * (cfg.scale_percent : ℚ) / 100))).toNat := by
  refine ⟨?_, by simpa using Int.toNat_le_toNat (le_max_left 1 _),
    by simpa using Int.toNat_le_toNat (le_max_left 1 _)⟩
  unfold render_image_layer at hr
  rw [hp] at hr
  dsimp only at hr
  rw [ho] at hr
  cases hr
  simp only [pastedContent, Option.some.injEq] at hc
  subst hc
  rw [if_pos hs]
  simp only [pilRotate]
  split <;> split <;> simp [resizeDims]

/-- C6 witness: a 3×5 logo at 40% resizes to (1, 2) — never zero. -/
theorem logo_scale_witness :
    resizeDims (Expr.resize (Expr.convertRGBA (Expr.opened 3 5 "logo.png")) 1 2
        Resample.lanczos) =
      some ((max 1 (pyInt ((3 : ℚ) * ((40 : ℤ) : ℚ) / 100))).toNat,
            (max 1 (pyInt ((5 : ℚ) * ((40 : ℤ) : ℚ) / 100))).toNat,
            Resample.lanczos) := by
  have hr : render_image_layer envTest (8, 8)
      { kind := "image", image_path := some "logo.png", image_alpha := 255,
        scale_percent := 40 } =
      some (Expr.paste (Expr.new 8 8 transparent)
        (Expr.resize (Expr.convertRGBA (Expr.opened 3 5 "logo.png")) 1 2 Resample.lanczos)
        0 0) := by
    norm_num [render_image_layer, envTest, pyInt]
    decide
  exact (logo_scale envTest 8 8 _ "logo.png" 3 5 _ _ rfl rfl (by decide) hr rfl).1

/-- C7 counterexample: with `family_path` set to an unloadable file and a
loadable DejaVu candidate on disk, the code falls back directly to the
built-in font, while the claim's chain (probe the candidate list when the
set path is not loadable) would pick the DejaVu font. -/
theorem load_font_counterexample :
    load_font envBad styleBad = Font.load_default ∧
    load_font_spec envBad styleBad =
      Font.truetype "/usr/share/fonts/truetype/dejavu/DejaVuSans.ttf" 20 ∧
    Font.load_default ≠
      Font.truetype "/usr/share/fonts/truetype/dejavu/DejaVuSans.ttf" 20 := by
  refine ⟨by decide, by decide, by decide⟩

/-- C7 amended: font resolution never raises — the result is the built-in
font or a truetype font that actually loads; a `family_path` that is set but
unloadable falls back *directly* to the built-in font (the candidate list is
not probed); with no `family_path`, the first candidate existing on disk is
used when it loads, otherwise the built-in font. -/
theorem load_font_chain (env : Env) (style : TextStyle) :
    ((∃ p, load_font env style = Font.truetype p style.size ∧
        env.loadOk p style.size = true) ∨
      load_font env style = Font.load_default) ∧
    (∀ p, style.family_path = some p → p ≠ "" → env.loadOk p style.size = false →
      load_font env style = Font.load_default) ∧
    ((style.family_path = none ∨ style.family_path = some "") →
      load_font env style =
        match find_default_font env with
        | some q =>
            if env.loadOk q style.size then Font.truetype q style.size
            else Font.load_default
        | none => Font.load_default) := by
  refine ⟨?_, ?_, ?_⟩
  · unfold load_font
    cases hpo : pyOrPath style.family_path (find_default_font env) with
    | none => exact Or.inr rfl
    | some p =>
        by_cases hpe : p = ""
        · simp [hpe]
        · by_cases hlo : env.loadOk p style.size
          · exact Or.inl ⟨p, by simp [hpe, hlo], hlo⟩
          · simp [hpe, hlo]
  · intro p hp hpe hlo
    unfold load_font
    have : pyOrPath style.family_path (find_default_font env) = some p := by
      simp [pyOrPath, hp, hpe]
    rw [this]
    simp [hpe, hlo]
  · intro h
    have hpo : pyOrPath style.family_path (find_default_font env) =
        find_default_font env := by
      rcases h with h | h <;> simp [pyOrPath, h]
    unfold load_font
    rw [hpo]
    cases hf : find_default_font env with
    | none => rfl
    | some q =>
        have hq : q ≠ "" := by
          have hmem : q ∈ font_candidates env.platform := by
            unfold find_default_font at hf
            exact List.mem_of_find?_eq_some hf
          intro he
          subst he
          unfold font_candidates at hmem
          split at hmem
          · exact absurd hmem (by decide)
          · split at hmem
            · exact absurd hmem (by decide)
            · exact absurd hmem (by decide)
        simp [hq]

/-- C7 witness: with a set-but-unloadable `family_path`, the code resolves
to the built-in font without raising. -/
theorem load_font_chain_witness :
    load_font envBad styleBad = Font.load_default :=
  (load_font_chain envBad styleBad).2.1 "bad.ttf" rfl (by decide) (by decide)

end Watermark
